import Mathlib

/-!
Shallow embedding of the reddit-crawler core (lifecycle state machine,
scheduler exclusivity, bounded-store eviction, deduplication, keyword
filtering, pipeline orchestration and repository creation), together with
theorems settling the specification claims against it.

Python `str.lower()` is embedded as `strLower`; SQLAlchemy sessions are
embedded by explicit state passing, with commit/rollback modelled as an
all-or-nothing update of the stored state (a `commitOk` flag stands for
whether the commit succeeds); exceptions are embedded as `Except`.
-/

deriving instance DecidableEq for Except

/-- Embedding of Python `str.lower()`. -/
def strLower (s : String) : String := ⟨s.data.map Char.toLower⟩

/-- `src/core/src/lifecycle/lifecycle_service.py` `PostStatus`: the five
lifecycle states. -/
inductive PostStatus
  | fetched
  | pending
  | assigned
  | replied
  | archived
deriving DecidableEq, Repr

/-- String value of each status (the `Enum` values in the source). -/
def PostStatus.value : PostStatus → String
  | .fetched => "fetched"
  | .pending => "pending"
  | .assigned => "assigned"
  | .replied => "replied"
  | .archived => "archived"

/-- Embedding of `PostStatus(s)` enum lookup: `some` iff `s` is one of the
five defined values, else the `ValueError` branch (`none`). -/
def PostStatus.ofValue (s : String) : Option PostStatus :=
  if s = "fetched" then some .fetched
  else if s = "pending" then some .pending
  else if s = "assigned" then some .assigned
  else if s = "replied" then some .replied
  else if s = "archived" then some .archived
  else none

/-- `PostLifecycleService.VALID_TRANSITIONS` from the source. -/
def VALID_TRANSITIONS : PostStatus → List PostStatus
  | .fetched => [.pending]
  | .pending => [.assigned, .archived]
  | .assigned => [.replied, .pending]
  | .replied => [.archived]
  | .archived => []

/-- `LifecycleException`, with the data each raise site puts in its message. -/
inductive LifecycleErr
  | invalidStatus (current target : String)
  | invalidTransition (current target : PostStatus) (allowed : List PostStatus)
  | badSourceState (required actual : String)
  | commitFailed
deriving DecidableEq, Repr

/-- `src/core/src/db/models.py` `Post`: the claim-relevant columns. -/
structure Post where
  reddit_post_id : String
  permalink : String
  status : String
  assigned_to : Option String
  fetched_at : Nat
deriving DecidableEq, Repr

/-- `src/core/src/db/models.py` `PostStatusLog`: one audit-trail record. -/
structure PostStatusLog where
  reddit_post_id : String
  old_status : String
  new_status : String
  changed_by : String
  change_reason : String
deriving DecidableEq, Repr

/-- `PostLifecycleService.validate_transition`: parses both statuses
(lowercased), accepts same-status, otherwise checks the transition table. -/
def validate_transition (current_status new_status : String) :
    Except LifecycleErr Bool :=
  match PostStatus.ofValue (strLower current_status),
        PostStatus.ofValue (strLower new_status) with
  | some current, some target =>
    if current = target then .ok true
    else
      let allowed := VALID_TRANSITIONS current
      if target ∈ allowed then .ok true
      else .error (.invalidTransition current target allowed)
  | _, _ => .error (.invalidStatus current_status new_status)

/-- `PostLifecycleService.transition_status`: validates, updates the post's
status to the lowercased target, builds the audit record, then commits;
on commit failure the session is rolled back (no update survives), embedded
by returning the error with no new state. -/
def transition_status (post : Post) (new_status changed_by change_reason : String)
    (commitOk : Bool) : Except LifecycleErr (Post × PostStatusLog) :=
  match validate_transition post.status new_status with
  | .error e => .error e
  | .ok _ =>
    let updated : Post := { post with status := strLower new_status }
    let entry : PostStatusLog :=
      { reddit_post_id := post.reddit_post_id
        old_status := post.status
        new_status := strLower new_status
        changed_by := changed_by
        change_reason := change_reason }
    if commitOk then .ok (updated, entry) else .error .commitFailed

/-- `PostLifecycleService.assign_post`: requires `pending`, sets the
assignee, then transitions to `assigned`. -/
def assign_post (post : Post) (assigned_to : String) (changed_by : String)
    (commitOk : Bool) : Except LifecycleErr (Post × PostStatusLog) :=
  if post.status ≠ "pending" then .error (.badSourceState "pending" post.status)
  else
    transition_status { post with assigned_to := some assigned_to }
      "assigned" changed_by "manual_assign" commitOk

/-- `PostLifecycleService.mark_replied`: requires `assigned`, transitions to
`replied`. -/
def mark_replied (post : Post) (changed_by : String) (commitOk : Bool) :
    Except LifecycleErr (Post × PostStatusLog) :=
  if post.status ≠ "assigned" then .error (.badSourceState "assigned" post.status)
  else transition_status post "replied" changed_by "reply_posted" commitOk

/-- The stored state: the `posts` table and the append-only
`post_status_logs` table. -/
structure DBState where
  posts : List Post
  logs : List PostStatusLog
deriving DecidableEq, Repr

/-- Transactional effect of `PostLifecycleService.transition_status` on the
stored state: on any raise the session is rolled back and the store is
unchanged; on success the one post row is updated and exactly one audit
record is appended, both by the same commit. -/
def transition_status_tx (db : DBState) (reddit_post_id : String)
    (new_status changed_by change_reason : String) (commitOk : Bool) :
    DBState × Bool :=
  match db.posts.find? (fun p => decide (p.reddit_post_id = reddit_post_id)) with
  | none => (db, false)
  | some post =>
    match transition_status post new_status changed_by change_reason commitOk with
    | .error _ => (db, false)
    | .ok (updated, entry) =>
      ({ posts := db.posts.map
           (fun q => if q.reddit_post_id = reddit_post_id then updated else q)
         logs := db.logs ++ [entry] }, true)

/-- Python string truthiness for an optional string (`if s and ...`). -/
def optTruthy : Option String → Bool
  | some s => decide (s ≠ "")
  | none => false

/-- `PostRepository.assign_post`: looks the post up, delegates to the
lifecycle service, catches every raise (returning `False` after rollback). -/
def repo_assign_post (db : DBState) (reddit_post_id assigned_to : String)
    (commitOk : Bool) : Bool × DBState :=
  match db.posts.find? (fun p => decide (p.reddit_post_id = reddit_post_id)) with
  | none => (false, db)
  | some post =>
    match assign_post post assigned_to assigned_to commitOk with
    | .error _ => (false, db)
    | .ok (updated, entry) =>
      (true,
       { posts := db.posts.map
           (fun q => if q.reddit_post_id = reddit_post_id then updated else q)
         logs := db.logs ++ [entry] })

/-- `PostRepository.mark_replied`: looks the post up, rejects a caller who is
not the recorded assignee (`if assigned_to and post.assigned_to !=
assigned_to`), then delegates to the lifecycle service; every raise is caught
and turned into `False` after rollback. -/
def repo_mark_replied (db : DBState) (reddit_post_id : String)
    (assigned_to : Option String) (commitOk : Bool) : Bool × DBState :=
  match db.posts.find? (fun p => decide (p.reddit_post_id = reddit_post_id)) with
  | none => (false, db)
  | some post =>
    if optTruthy assigned_to && decide (post.assigned_to ≠ assigned_to) then
      (false, db)
    else
      match mark_replied post (assigned_to.getD "system") commitOk with
      | .error _ => (false, db)
      | .ok (updated, entry) =>
        (true,
         { posts := db.posts.map
             (fun q => if q.reddit_post_id = reddit_post_id then updated else q)
           logs := db.logs ++ [entry] })

/-- `src/core/src/lifecycle/action_validator.py` `PostAction`. -/
inductive PostAction
  | view
  | assign_to_worker
  | reply
  | archive
  | internal_note
  | auto_expire
  | auto_unassign
  | reassign
  | reply_again
  | edit_reply
deriving DecidableEq, Repr

/-- `ActionValidator.ALLOWED_ACTIONS`. -/
def ALLOWED_ACTIONS (status : String) : List PostAction :=
  if status = "fetched" then [.view]
  else if status = "pending" then [.view, .assign_to_worker, .auto_expire]
  else if status = "assigned" then [.view, .reply, .auto_unassign]
  else if status = "replied" then [.view, .archive, .internal_note]
  else if status = "archived" then [.view]
  else []

/-- `ActionValidator.BLOCKED_ACTIONS`. -/
def BLOCKED_ACTIONS (status : String) : List PostAction :=
  if status = "pending" then [.reply, .reassign]
  else if status = "assigned" then [.assign_to_worker]
  else if status = "replied" then [.reply_again, .edit_reply]
  else if status = "archived" then
    [.assign_to_worker, .reply, .archive, .internal_note, .auto_expire,
     .auto_unassign, .reassign, .reply_again, .edit_reply]
  else []

/-- `ActionException`, with the data each raise site puts in its message. -/
inductive ActionErr
  | blocked (action : PostAction) (status : String) (allowed : List PostAction)
  | notAllowed (action : PostAction) (status : String) (allowed : List PostAction)
  | notAssignee (assigned user : Option String)
  | alreadyAssigned (assigned : Option String)
deriving DecidableEq, Repr

/-- `ActionValidator.validate_action`: status-level allow/block table check,
then the ownership checks for `reply` and `assign_to_worker`. -/
def validate_action (post : Post) (action : PostAction) (user : Option String) :
    Except ActionErr Bool :=
  if action ∉ ALLOWED_ACTIONS (strLower post.status) then
    if action ∈ BLOCKED_ACTIONS (strLower post.status) then
      .error (.blocked action (strLower post.status)
        (ALLOWED_ACTIONS (strLower post.status)))
    else
      .error (.notAllowed action (strLower post.status)
        (ALLOWED_ACTIONS (strLower post.status)))
  else if action = .reply ∧ post.assigned_to ≠ user then
    .error (.notAssignee post.assigned_to user)
  else if action = .assign_to_worker ∧ optTruthy post.assigned_to = true ∧
      post.assigned_to ≠ user then
    .error (.alreadyAssigned post.assigned_to)
  else .ok true

/-- Claim-relevant scheduler fields of `SchedulerService`: `holders` counts
the threads currently holding `_job_lock` (a mutex: non-blocking acquire
succeeds exactly when nobody holds it). -/
structure SchedulerState where
  holders : Nat
  job_running : Bool
  last_run_time : Option Nat
  next_run_time : Option Nat
deriving DecidableEq, Repr

/-- The result dictionary of `CrawlerPipeline.run` (`old_posts_deleted` is
absent — `none` — on the empty-fetch early return). -/
structure RunSummary where
  total_fetched : Nat
  total_saved : Nat
  duplicates_skipped : Nat
  old_posts_deleted : Option Nat
deriving DecidableEq, Repr

/-- What one call to `SchedulerService._run_crawler_sync` reports: the
`status` field of the returned dictionary, and whether the call reached
`pipeline.run()` at all. -/
structure RunReport where
  status : String
  pipelineStarted : Bool
deriving DecidableEq, Repr

/-- `SchedulerService._run_crawler_sync`: non-blocking lock acquisition; if
the lock is held the call returns `skipped` at once, touching nothing; else
it runs the pipeline (outcome passed in as `pipeline`), records last/next run
times, and releases the lock in the `finally` block. -/
def run_crawler_sync (st : SchedulerState) (now interval_hours : Nat)
    (pipeline : Except String RunSummary) : RunReport × SchedulerState :=
  if st.holders ≠ 0 then
    ({ status := "skipped", pipelineStarted := false }, st)
  else
    let st1 : SchedulerState :=
      { st with holders := st.holders + 1, job_running := true
                last_run_time := some now }
    match pipeline with
    | .ok _ =>
      ({ status := "success", pipelineStarted := true },
       { st1 with next_run_time := some (now + interval_hours)
                  job_running := false, holders := st1.holders - 1 })
    | .error _ =>
      ({ status := "failed", pipelineStarted := true },
       { st1 with next_run_time := some (now + interval_hours)
                  job_running := false, holders := st1.holders - 1 })

/-- Interleaving events for the lock discipline: a thread attempts to start a
run (scheduled or manual — both call `_run_crawler_sync`), or a running
thread finishes (the `finally` release). -/
inductive SchedulerEv
  | tryStart (now : Nat)
  | finish (now interval_hours : Nat)
deriving DecidableEq, Repr

/-- One scheduler step: `tryStart` acquires the lock non-blockingly (no-op
when held), `finish` updates the next-run time and releases. -/
def schedStep (st : SchedulerState) : SchedulerEv → SchedulerState
  | .tryStart now =>
    if st.holders ≠ 0 then st
    else { st with holders := st.holders + 1, job_running := true
                   last_run_time := some now }
  | .finish now interval_hours =>
    { st with holders := st.holders - 1, job_running := false
              next_run_time := some (now + interval_hours) }

/-- Run a sequence of scheduler events. -/
def schedRun (st : SchedulerState) (evs : List SchedulerEv) : SchedulerState :=
  evs.foldl schedStep st

/-- A normalized post dictionary as it flows through the pipeline
(`post_data` in the source); the absent/`None` key is embedded as `""`,
matching Python string truthiness at every use site. -/
structure RawPost where
  post_id : String
  permalink : String
  title : String
  body : String
  fetched_at : Nat
deriving DecidableEq, Repr

/-- `Deduplicator.is_duplicate`: a truthy `post_id` found among the existing
post ids, or a truthy `permalink` found among the existing permalinks. -/
def is_duplicate (existing_post_ids existing_permalinks : List String)
    (post : RawPost) : Bool :=
  (decide (post.post_id ≠ "") && existing_post_ids.contains post.post_id) ||
  (decide (post.permalink ≠ "") && existing_permalinks.contains post.permalink)

/-- The loop of `Deduplicator.filter_duplicates`, with the two local
accumulating `seen` sets. -/
def filterDupGo (existing_post_ids existing_permalinks : List String) :
    List RawPost → List String → List String → List RawPost
  | [], _, _ => []
  | post :: rest, seen_post_ids, seen_permalinks =>
    if decide (post.post_id ≠ "") && seen_post_ids.contains post.post_id then
      filterDupGo existing_post_ids existing_permalinks rest seen_post_ids
        seen_permalinks
    else if decide (post.permalink ≠ "") &&
        seen_permalinks.contains post.permalink then
      filterDupGo existing_post_ids existing_permalinks rest seen_post_ids
        seen_permalinks
    else if is_duplicate existing_post_ids existing_permalinks post then
      filterDupGo existing_post_ids existing_permalinks rest seen_post_ids
        seen_permalinks
    else
      post :: filterDupGo existing_post_ids existing_permalinks rest
        (if decide (post.post_id ≠ "") then post.post_id :: seen_post_ids
         else seen_post_ids)
        (if decide (post.permalink ≠ "") then post.permalink :: seen_permalinks
         else seen_permalinks)

/-- `Deduplicator.filter_duplicates`: process in input order, first
occurrence wins, starting from empty local seen sets. -/
def filter_duplicates (existing_post_ids existing_permalinks : List String)
    (posts : List RawPost) : List RawPost :=
  filterDupGo existing_post_ids existing_permalinks posts [] []

/-- Python `keyword in text`: substring occurrence. -/
def substrOccurs (keyword text : String) : Bool :=
  decide (keyword.toList <:+: text.toList)

/-- `src/core/src/keywords/matcher.py` `MatchResult` (sets embedded as the
filtered keyword lists). -/
structure MatchResult where
  matched : Bool
  matched_primary : List String
  matched_secondary : List String
deriving DecidableEq, Repr

/-- `SetKeywordMatcher.match`: lowercases the text, collects the keywords of
each class occurring as substrings, and is matched iff both collections are
non-empty. -/
def matcherMatch (primary_keywords secondary_keywords : List String)
    (text : String) : MatchResult :=
  let text_lower := strLower text
  let matched_primary :=
    primary_keywords.filter (fun k => substrOccurs k text_lower)
  let matched_secondary :=
    secondary_keywords.filter (fun k => substrOccurs k text_lower)
  { matched := decide (matched_primary.length > 0) &&
      decide (matched_secondary.length > 0)
    matched_primary := matched_primary
    matched_secondary := matched_secondary }

/-- `KeywordFilter.matches`: lowercased title and body joined by a space,
then the matcher verdict. -/
def keywordMatches (primary_keywords secondary_keywords : List String)
    (post : RawPost) : Bool :=
  let title := strLower post.title
  let body := strLower post.body
  (matcherMatch primary_keywords secondary_keywords (title ++ " " ++ body)).matched

/-- `KeywordFilter.filter_posts`: when the total keyword count is zero the
whole batch is accepted unchanged; otherwise keep the matching posts. -/
def filter_posts (primary_keywords secondary_keywords : List String)
    (posts : List RawPost) : List RawPost :=
  if primary_keywords.length + secondary_keywords.length = 0 then posts
  else posts.filter (keywordMatches primary_keywords secondary_keywords)

/-- The `ORDER BY fetched_at ASC` relation used by the eviction query. -/
def byFetchedAt (a b : Post) : Prop := a.fetched_at ≤ b.fetched_at

instance : DecidableRel byFetchedAt := fun a b =>
  inferInstanceAs (Decidable (a.fetched_at ≤ b.fetched_at))

instance : IsTotal Post byFetchedAt :=
  ⟨fun a b => Nat.le_total a.fetched_at b.fetched_at⟩

instance : IsTrans Post byFetchedAt :=
  ⟨fun _ _ _ hab hbc => Nat.le_trans hab hbc⟩

/-- `PostRepository.delete_oldest_posts` (wrapped unchanged by
`SQLAlchemyStorage.cleanup_old_posts`): no-op below the limit; otherwise the
`excess` oldest rows by fetch timestamp are deleted one by one (a failing
delete — `delOk p = false` — is logged and skipped), then the deletions are
committed; a failing commit rolls everything back and returns 0.  The table
is a bag of rows, embedded as a list up to permutation. -/
def delete_oldest_posts (posts : List Post) (max_posts : Nat)
    (delOk : Post → Bool) (commitOk : Bool) : Nat × List Post :=
  let total_count := posts.length
  if total_count ≤ max_posts then (0, posts)
  else
    let posts_to_delete := total_count - max_posts
    let sorted := List.insertionSort byFetchedAt posts
    let oldest := sorted.take posts_to_delete
    if oldest = [] then (0, posts)
    else
      let deleted := oldest.filter delOk
      if commitOk then
        (deleted.length,
         oldest.filter (fun p => !(delOk p)) ++ sorted.drop posts_to_delete)
      else (0, posts)

/-- `PostRepository.get_existing_post_ids`: ids of stored posts, excluding
null/empty. -/
def get_existing_post_ids (db : DBState) : List String :=
  (db.posts.map Post.reddit_post_id).filter (fun s => decide (s ≠ ""))

/-- `PostRepository.get_existing_permalinks`: permalinks of stored posts,
excluding null/empty. -/
def get_existing_permalinks (db : DBState) : List String :=
  (db.posts.map Post.permalink).filter (fun s => decide (s ≠ ""))

/-- `StorageException` carrier for the repository creation path. -/
inductive StorageErr
  | constraintViolation (post_id : String)
  | saveFailed (post_id : String)
deriving DecidableEq, Repr

/-- `PostRepository.create_post`: inserts a new row with status `fetched` and
commits; a duplicate `reddit_post_id` raises `IntegrityError` at commit (the
column's unique constraint, nulls exempt), which is handled by rolling back
and returning the already-stored row untouched; any other insert failure
(`insertOk post_data = false`) rolls back and raises `StorageException`.
After a successful insert the row is transitioned `fetched → pending`; a
failure of that transition is tolerated and leaves the row in `fetched`. -/
def create_post (db : DBState) (post_data : RawPost) (insertOk : RawPost → Bool)
    (transCommitOk : Bool) : Except StorageErr (Post × DBState) :=
  if post_data.post_id ≠ "" ∧
      (db.posts.map Post.reddit_post_id).contains post_data.post_id then
    match db.posts.find? (fun p => decide (p.reddit_post_id = post_data.post_id)) with
    | some existing => .ok (existing, db)
    | none => .error (.constraintViolation post_data.post_id)
  else if !(insertOk post_data) then .error (.saveFailed post_data.post_id)
  else
    let post : Post :=
      { reddit_post_id := post_data.post_id
        permalink := post_data.permalink
        status := "fetched"
        assigned_to := none
        fetched_at := post_data.fetched_at }
    match transition_status post "pending" "system" "post_created" transCommitOk with
    | .ok (updated, entry) =>
      .ok (updated, { posts := db.posts ++ [updated], logs := db.logs ++ [entry] })
    | .error _ => .ok (post, { db with posts := db.posts ++ [post] })

/-- `PostRepository.create_posts`: create each in turn, a `StorageException`
skips that input and the loop continues; returns the saved (created or
existing) rows. -/
def create_posts (db : DBState) (posts_data : List RawPost)
    (insertOk : RawPost → Bool) (transCommitOk : Bool) : List Post × DBState :=
  match posts_data with
  | [] => ([], db)
  | post_data :: rest =>
    match create_post db post_data insertOk transCommitOk with
    | .ok (post, db1) =>
      let r := create_posts db1 rest insertOk transCommitOk
      (post :: r.1, r.2)
    | .error _ => create_posts db rest insertOk transCommitOk

/-- `CrawlerPipeline.run`: cleanup, fetch (the fetched batch is an input),
normalize (pass-through), then — unconditionally, the `TEMPORARY` block —
the keyword/engagement/intent filter stages are skipped, so the configured
keyword classes `primary_keywords`/`secondary_keywords` are never consulted;
deduplicate against the constructor's key-set snapshot and persist.  The
empty-fetch early return reports zero counts and omits
`old_posts_deleted`. -/
def pipeline_run (primary_keywords secondary_keywords : List String)
    (max_posts : Nat) (db : DBState) (raw_posts : List RawPost)
    (delOk : Post → Bool) (cleanupCommitOk : Bool) (insertOk : RawPost → Bool)
    (transCommitOk : Bool) : RunSummary × DBState :=
  let existing_post_ids := get_existing_post_ids db
  let existing_permalinks := get_existing_permalinks db
  let r0 := delete_oldest_posts db.posts max_posts delOk cleanupCommitOk
  let db0 : DBState := { db with posts := r0.2 }
  if raw_posts = [] then
    ({ total_fetched := 0, total_saved := 0, duplicates_skipped := 0
       old_posts_deleted := none }, db0)
  else
    let normalized_posts := raw_posts
    let unique_posts :=
      filter_duplicates existing_post_ids existing_permalinks normalized_posts
    let duplicates_skipped := normalized_posts.length - unique_posts.length
    let r7 := create_posts db0 unique_posts insertOk transCommitOk
    ({ total_fetched := raw_posts.length
       total_saved := r7.1.length
       duplicates_skipped := duplicates_skipped
       old_posts_deleted := some r0.1 }, r7.2)

lemma ofValue_eq_some {s : String} {t : PostStatus}
    (h : PostStatus.ofValue s = some t) : s = t.value := by
  unfold PostStatus.ofValue at h
  split_ifs at h <;>
    first
      | (injection h with h; subst h; subst_vars; rfl)
      | cases h

lemma ofValue_value (t : PostStatus) :
    PostStatus.ofValue (strLower t.value) = some t := by
  cases t <;> decide

lemma validate_transition_error_of {cur tgt : String} {c t : PostStatus}
    (h1 : PostStatus.ofValue (strLower cur) = some c)
    (h2 : PostStatus.ofValue (strLower tgt) = some t)
    (hne : c ≠ t) (hnm : t ∉ VALID_TRANSITIONS c) :
    validate_transition cur tgt =
      .error (.invalidTransition c t (VALID_TRANSITIONS c)) := by
  unfold validate_transition
  rw [h1, h2]
  simp [hne, hnm]

lemma validate_transition_ok_elim {cur tgt : String} {b : Bool}
    (h : validate_transition cur tgt = .ok b) :
    ∃ c t, PostStatus.ofValue (strLower cur) = some c ∧
      PostStatus.ofValue (strLower tgt) = some t ∧
      (c = t ∨ t ∈ VALID_TRANSITIONS c) := by
  unfold validate_transition at h
  cases hc : PostStatus.ofValue (strLower cur) with
  | none => rw [hc] at h; cases h
  | some c =>
    cases ht : PostStatus.ofValue (strLower tgt) with
    | none => rw [hc, ht] at h; cases h
    | some t =>
      rw [hc, ht] at h
      refine ⟨c, t, rfl, rfl, ?_⟩
      by_cases hct : c = t
      · exact Or.inl hct
      · simp only [hct, if_false] at h
        by_cases hm : t ∈ VALID_TRANSITIONS c
        · exact Or.inr hm
        · simp [hm] at h

lemma validate_transition_ok_true {cur tgt : String} {b : Bool}
    (h : validate_transition cur tgt = .ok b) : b = true := by
  unfold validate_transition at h
  cases hc : PostStatus.ofValue (strLower cur) with
  | none => rw [hc] at h; cases h
  | some c =>
    cases ht : PostStatus.ofValue (strLower tgt) with
    | none => rw [hc, ht] at h; cases h
    | some t =>
      rw [hc, ht] at h
      dsimp only at h
      split_ifs at h <;> simp_all

lemma validate_transition_same {cur : String} {c : PostStatus}
    (h : PostStatus.ofValue (strLower cur) = some c) :
    validate_transition cur cur = .ok true := by
  unfold validate_transition
  rw [h]
  simp

lemma transition_status_error_of_invalid {post : Post}
    {tgt cb cr : String} {ok : Bool} {e : LifecycleErr}
    (h : validate_transition post.status tgt = .error e) :
    transition_status post tgt cb cr ok = .error e := by
  unfold transition_status
  rw [h]

lemma transition_status_ok_elim {post : Post} {tgt cb cr : String} {ok : Bool}
    {updated : Post} {entry : PostStatusLog}
    (h : transition_status post tgt cb cr ok = .ok (updated, entry)) :
    validate_transition post.status tgt = .ok true ∧
      updated = { post with status := strLower tgt } ∧
      entry = { reddit_post_id := post.reddit_post_id, old_status := post.status
                new_status := strLower tgt, changed_by := cb
                change_reason := cr } ∧ ok = true := by
  unfold transition_status at h
  cases hv : validate_transition post.status tgt with
  | error e => rw [hv] at h; cases h
  | ok b =>
    rw [hv] at h
    cases ok with
    | false => simp at h
    | true =>
      simp only [if_true] at h
      cases h
      have hb : b = true := validate_transition_ok_true hv
      subst hb
      exact ⟨rfl, rfl, rfl, rfl⟩

/-- C1: an invalid transition request (the parsed current and target statuses
differ and the pair is not in `VALID_TRANSITIONS`) fails with a
`LifecycleException` carrying the blocked transition and the allowed set, and
the stored state is unchanged; every audit record a transition ever produces
has an (old, new) pair that is in the table or has old = new; and a
successful transition never takes an `archived` item out of `archived`. -/
theorem lifecycle_transition_guard :
    (∀ (post : Post) (tgt cb cr : String) (ok : Bool) (c t : PostStatus),
      PostStatus.ofValue (strLower post.status) = some c →
      PostStatus.ofValue (strLower tgt) = some t →
      c ≠ t → t ∉ VALID_TRANSITIONS c →
      transition_status post tgt cb cr ok =
        .error (.invalidTransition c t (VALID_TRANSITIONS c))) ∧
    (∀ (db : DBState) (pid tgt cb cr : String) (ok : Bool) (post : Post)
      (c t : PostStatus),
      db.posts.find? (fun p => decide (p.reddit_post_id = pid)) = some post →
      PostStatus.ofValue (strLower post.status) = some c →
      PostStatus.ofValue (strLower tgt) = some t →
      c ≠ t → t ∉ VALID_TRANSITIONS c →
      transition_status_tx db pid tgt cb cr ok = (db, false)) ∧
    (∀ (post : Post) (tgt cb cr : String) (ok : Bool) (updated : Post)
      (entry : PostStatusLog),
      transition_status post tgt cb cr ok = .ok (updated, entry) →
      ∃ c t, PostStatus.ofValue (strLower entry.old_status) = some c ∧
        PostStatus.ofValue (strLower entry.new_status) = some t ∧
        (c = t ∨ t ∈ VALID_TRANSITIONS c)) ∧
    (∀ (post : Post) (tgt cb cr : String) (ok : Bool) (updated : Post)
      (entry : PostStatusLog),
      PostStatus.ofValue (strLower post.status) = some .archived →
      transition_status post tgt cb cr ok = .ok (updated, entry) →
      PostStatus.ofValue (strLower updated.status) = some .archived) := by
  refine ⟨?_, ?_, ?_, ?_⟩
  · intro post tgt cb cr ok c t h1 h2 hne hnm
    exact transition_status_error_of_invalid
      (validate_transition_error_of h1 h2 hne hnm)
  · intro db pid tgt cb cr ok post c t hfind h1 h2 hne hnm
    unfold transition_status_tx
    rw [hfind]
    dsimp only
    rw [@transition_status_error_of_invalid post tgt cb cr ok _
      (validate_transition_error_of h1 h2 hne hnm)]
  · intro post tgt cb cr ok updated entry h
    obtain ⟨hv, _, hentry, _⟩ := transition_status_ok_elim h
    obtain ⟨c, t, h1, h2, hct⟩ := validate_transition_ok_elim hv
    subst hentry
    refine ⟨c, t, h1, ?_, hct⟩
    have := ofValue_eq_some h2
    simp only [this]
    exact ofValue_value t
  · intro post tgt cb cr ok updated entry harch h
    obtain ⟨hv, hupd, _, _⟩ := transition_status_ok_elim h
    obtain ⟨c, t, h1, h2, hct⟩ := validate_transition_ok_elim hv
    rw [harch] at h1
    cases h1
    have ht : t = PostStatus.archived := by
      rcases hct with h | h
      · exact h.symm
      · simp [VALID_TRANSITIONS] at h
    subst ht
    subst hupd
    have := ofValue_eq_some h2
    simp only [this]
    exact ofValue_value _

/-- Witness for `lifecycle_transition_guard` at concrete inputs: an
`assigned → archived` request is blocked and leaves the store unchanged, a
concrete successful transition's audit pair is in the table, and an archived
item stays archived. -/
theorem lifecycle_transition_guard_witness :
    transition_status
        { reddit_post_id := "p1", permalink := "l1", status := "assigned"
          assigned_to := some "w1", fetched_at := 3 }
        "archived" "w1" "manual" true =
      .error (.invalidTransition .assigned .archived [.replied, .pending]) ∧
    transition_status_tx
        { posts := [{ reddit_post_id := "p1", permalink := "l1"
                      status := "assigned", assigned_to := some "w1"
                      fetched_at := 3 }], logs := [] }
        "p1" "archived" "w1" "manual" true =
      ({ posts := [{ reddit_post_id := "p1", permalink := "l1"
                     status := "assigned", assigned_to := some "w1"
                     fetched_at := 3 }], logs := [] }, false) := by
  constructor
  · exact lifecycle_transition_guard.1
      { reddit_post_id := "p1", permalink := "l1", status := "assigned"
        assigned_to := some "w1", fetched_at := 3 }
      "archived" "w1" "manual" true .assigned .archived
      (by decide) (by decide) (by decide) (by decide)
  · exact lifecycle_transition_guard.2.1
      { posts := [{ reddit_post_id := "p1", permalink := "l1"
                    status := "assigned", assigned_to := some "w1"
                    fetched_at := 3 }], logs := [] }
      "p1" "archived" "w1" "manual" true
      { reddit_post_id := "p1", permalink := "l1", status := "assigned"
        assigned_to := some "w1", fetched_at := 3 }
      .assigned .archived (by decide) (by decide) (by decide) (by decide)
      (by decide)

/-- C2: the status update and the audit append are one atomic unit — a call
to the transactional transition either leaves the store exactly as it was
(reporting failure), or updates the one post's status and appends exactly one
`PostStatusLog` record in the same commit; no partial application exists. -/
theorem transition_and_audit_atomic :
    ∀ (db : DBState) (pid tgt cb cr : String) (ok : Bool),
      ((transition_status_tx db pid tgt cb cr ok).2 = false →
        (transition_status_tx db pid tgt cb cr ok).1 = db) ∧
      ((transition_status_tx db pid tgt cb cr ok).2 = true →
        ∃ post updated entry,
          db.posts.find? (fun p => decide (p.reddit_post_id = pid)) = some post ∧
          updated = { post with status := strLower tgt } ∧
          entry = { reddit_post_id := post.reddit_post_id
                    old_status := post.status, new_status := strLower tgt
                    changed_by := cb, change_reason := cr } ∧
          (transition_status_tx db pid tgt cb cr ok).1 =
            { posts := db.posts.map
                (fun q => if q.reddit_post_id = pid then updated else q)
              logs := db.logs ++ [entry] }) := by
  intro db pid tgt cb cr ok
  unfold transition_status_tx
  cases hfind : db.posts.find? (fun p => decide (p.reddit_post_id = pid)) with
  | none =>
    refine ⟨fun _ => rfl, fun h => ?_⟩
    simp at h
  | some post =>
    dsimp only
    cases hts : transition_status post tgt cb cr ok with
    | error e =>
      refine ⟨fun _ => rfl, fun h => ?_⟩
      simp at h
    | ok pe =>
      obtain ⟨updated, entry⟩ := pe
      obtain ⟨_, hupd, hentry, _⟩ := transition_status_ok_elim hts
      refine ⟨fun h => by simp at h, fun _ => ?_⟩
      exact ⟨post, updated, entry, rfl, hupd, hentry, rfl⟩

/-- Witness for `transition_and_audit_atomic`: a failing commit leaves the
store unchanged, and a successful pending → assigned transition updates the
row and appends exactly its one audit record. -/
theorem transition_and_audit_atomic_witness :
    (transition_status_tx
        { posts := [{ reddit_post_id := "p1", permalink := "l1"
                      status := "pending", assigned_to := none
                      fetched_at := 3 }], logs := [] }
        "p1" "assigned" "w1" "manual_assign" false).1 =
      { posts := [{ reddit_post_id := "p1", permalink := "l1"
                    status := "pending", assigned_to := none
                    fetched_at := 3 }], logs := [] } ∧
    ∃ post updated entry,
      (({ posts := [{ reddit_post_id := "p1", permalink := "l1"
                      status := "pending", assigned_to := none
                      fetched_at := 3 }], logs := [] } : DBState).posts).find?
          (fun p => decide (p.reddit_post_id = "p1")) = some post ∧
      updated = { post with status := strLower "assigned" } ∧
      entry = { reddit_post_id := post.reddit_post_id
                old_status := post.status, new_status := strLower "assigned"
                changed_by := "w1", change_reason := "manual_assign" } ∧
      (transition_status_tx
          { posts := [{ reddit_post_id := "p1", permalink := "l1"
                        status := "pending", assigned_to := none
                        fetched_at := 3 }], logs := [] }
          "p1" "assigned" "w1" "manual_assign" true).1 =
        { posts := [{ reddit_post_id := "p1", permalink := "l1"
                      status := "pending", assigned_to := none
                      fetched_at := 3 }].map
            (fun q => if q.reddit_post_id = "p1" then updated else q)
          logs := [] ++ [entry] } := by
  constructor
  · exact (transition_and_audit_atomic
      { posts := [{ reddit_post_id := "p1", permalink := "l1"
                    status := "pending", assigned_to := none
                    fetched_at := 3 }], logs := [] }
      "p1" "assigned" "w1" "manual_assign" false).1 (by decide)
  · exact (transition_and_audit_atomic
      { posts := [{ reddit_post_id := "p1", permalink := "l1"
                    status := "pending", assigned_to := none
                    fetched_at := 3 }], logs := [] }
      "p1" "assigned" "w1" "manual_assign" true).2 (by decide)

/-- C9: transitioning an item to its current status succeeds without error
and is an observable no-op: the returned item equals the input item (same
status, assignee and timestamps); only the one no-op audit record, whose old
and new statuses are equal, is produced. -/
theorem same_status_transition_idempotent :
    ∀ (post : Post) (cb cr : String) (c : PostStatus),
      PostStatus.ofValue (strLower post.status) = some c →
      strLower post.status = post.status →
      transition_status post post.status cb cr true =
        .ok (post,
          { reddit_post_id := post.reddit_post_id, old_status := post.status
            new_status := post.status, changed_by := cb
            change_reason := cr }) := by
  intro post cb cr c hc hl
  obtain ⟨pid, pl, st, asg, fa⟩ := post
  unfold transition_status
  rw [validate_transition_same hc]
  dsimp only at hl ⊢
  rw [hl]
  rfl

/-- Witness for `same_status_transition_idempotent`: a pending → pending
request at a concrete item returns the item unchanged with a no-op record. -/
theorem same_status_transition_idempotent_witness :
    transition_status
        { reddit_post_id := "p1", permalink := "l1", status := "pending"
          assigned_to := some "w1", fetched_at := 9 }
        "pending" "w1" "noop" true =
      .ok ({ reddit_post_id := "p1", permalink := "l1", status := "pending"
             assigned_to := some "w1", fetched_at := 9 },
           { reddit_post_id := "p1", old_status := "pending"
             new_status := "pending", changed_by := "w1"
             change_reason := "noop" }) :=
  same_status_transition_idempotent
    { reddit_post_id := "p1", permalink := "l1", status := "pending"
      assigned_to := some "w1", fetched_at := 9 }
    "w1" "noop" .pending (by decide) (by decide)

/-- C3: an invocation of the crawler run entry point while the exclusivity
lock is held returns synchronously with the `skipped` status, never reaches
the pipeline, and leaves the whole scheduler state — in particular the
last-run and next-run timestamps — unchanged; and along any interleaving of
attempts and finishes starting from a state with at most one lock holder,
the number of pipeline executions in flight never exceeds one. -/
theorem scheduler_exclusive_run :
    (∀ (st : SchedulerState) (now interval_hours : Nat)
      (pipeline : Except String RunSummary),
      st.holders ≠ 0 →
      run_crawler_sync st now interval_hours pipeline =
        ({ status := "skipped", pipelineStarted := false }, st)) ∧
    (∀ (st : SchedulerState) (evs : List SchedulerEv),
      st.holders ≤ 1 → (schedRun st evs).holders ≤ 1) := by
  constructor
  · intro st now interval_hours pipeline h
    unfold run_crawler_sync
    rw [if_pos h]
  · intro st evs
    induction evs generalizing st with
    | nil => intro h; exact h
    | cons e rest ih =>
      intro h
      cases e with
      | tryStart now =>
        by_cases h0 : st.holders ≠ 0
        · simpa [schedRun, schedStep, h0] using ih st h
        · push_neg at h0
          refine ih _ ?_
          simp [schedStep, h0]
      | finish now interval_hours =>
        refine ih _ ?_
        exact le_trans (Nat.pred_le _) h

/-- Witness for `scheduler_exclusive_run`: with the lock held, a concrete
manual trigger returns `skipped` and the scheduler state (timestamps
included) is untouched; a concrete two-thread trace never has two holders. -/
theorem scheduler_exclusive_run_witness :
    run_crawler_sync
        { holders := 1, job_running := true, last_run_time := some 4
          next_run_time := some 16 } 7 12
        (.ok { total_fetched := 3, total_saved := 2, duplicates_skipped := 1
               old_posts_deleted := some 0 }) =
      ({ status := "skipped", pipelineStarted := false },
       { holders := 1, job_running := true, last_run_time := some 4
         next_run_time := some 16 }) ∧
    (schedRun
        { holders := 0, job_running := false, last_run_time := none
          next_run_time := none }
        [.tryStart 1, .tryStart 2, .finish 3 12, .tryStart 4]).holders ≤ 1 := by
  constructor
  · exact scheduler_exclusive_run.1
      { holders := 1, job_running := true, last_run_time := some 4
        next_run_time := some 16 } 7 12
      (.ok { total_fetched := 3, total_saved := 2, duplicates_skipped := 1
             old_posts_deleted := some 0 })
      (by decide)
  · exact scheduler_exclusive_run.2
      { holders := 0, job_running := false, last_run_time := none
        next_run_time := none }
      [.tryStart 1, .tryStart 2, .finish 3 12, .tryStart 4]
      (by decide)

/-- C4: assignment succeeds only from `pending` (a repository assign on any
other status fails and leaves the store unchanged); an assign attempt on an
item already assigned to somebody else fails with an `ActionException`;
`mark_replied` by a worker who is not the recorded assignee fails with an
`ActionException` at the validator and returns `false` at the repository
without touching the store; and `mark_replied` by the current assignee of an
`assigned` item moves it to `replied` with its audit record. -/
theorem assign_and_resolve_guarded :
    (∀ (post : Post) (w cb : String) (ok : Bool) (updated : Post)
      (entry : PostStatusLog),
      assign_post post w cb ok = .ok (updated, entry) →
      post.status = "pending") ∧
    (∀ (db : DBState) (pid w : String) (ok : Bool) (post : Post),
      db.posts.find? (fun p => decide (p.reddit_post_id = pid)) = some post →
      post.status ≠ "pending" →
      repo_assign_post db pid w ok = (false, db)) ∧
    (∀ (post : Post) (user : Option String),
      optTruthy post.assigned_to = true → post.assigned_to ≠ user →
      ∃ e, validate_action post .assign_to_worker user = .error e) ∧
    (∀ (post : Post) (user : Option String),
      post.assigned_to ≠ user →
      ∃ e, validate_action post .reply user = .error e) ∧
    (∀ (db : DBState) (pid w w0 : String) (ok : Bool) (post : Post),
      db.posts.find? (fun p => decide (p.reddit_post_id = pid)) = some post →
      post.assigned_to = some w0 → w ≠ "" → w ≠ w0 →
      repo_mark_replied db pid (some w) ok = (false, db)) ∧
    (∀ (db : DBState) (pid w : String) (post : Post),
      db.posts.find? (fun p => decide (p.reddit_post_id = pid)) = some post →
      post.status = "assigned" → post.assigned_to = some w →
      repo_mark_replied db pid (some w) true =
        (true,
         { posts := db.posts.map (fun q =>
             if q.reddit_post_id = pid then { post with status := "replied" }
             else q)
           logs := db.logs ++
             [{ reddit_post_id := post.reddit_post_id
                old_status := post.status, new_status := "replied"
                changed_by := w, change_reason := "reply_posted" }] })) := by
  refine ⟨?_, ?_, ?_, ?_, ?_, ?_⟩
  · intro post w cb ok updated entry h
    by_contra hne
    unfold assign_post at h
    rw [if_pos hne] at h
    cases h
  · intro db pid w ok post hfind hne
    unfold repo_assign_post
    rw [hfind]
    dsimp only
    unfold assign_post
    rw [if_pos hne]
  · intro post user htr hne
    unfold validate_action
    by_cases h1 : PostAction.assign_to_worker ∉ ALLOWED_ACTIONS (strLower post.status)
    · rw [if_pos h1]
      by_cases h2 : PostAction.assign_to_worker ∈ BLOCKED_ACTIONS (strLower post.status)
      · rw [if_pos h2]; exact ⟨_, rfl⟩
      · rw [if_neg h2]; exact ⟨_, rfl⟩
    · rw [if_neg h1]
      by_cases h3 : PostAction.assign_to_worker = PostAction.reply ∧
          post.assigned_to ≠ user
      · rw [if_pos h3]; exact ⟨_, rfl⟩
      · rw [if_neg h3, if_pos ⟨rfl, htr, hne⟩]
        exact ⟨_, rfl⟩
  · intro post user hne
    unfold validate_action
    by_cases h1 : PostAction.reply ∉ ALLOWED_ACTIONS (strLower post.status)
    · rw [if_pos h1]
      by_cases h2 : PostAction.reply ∈ BLOCKED_ACTIONS (strLower post.status)
      · rw [if_pos h2]; exact ⟨_, rfl⟩
      · rw [if_neg h2]; exact ⟨_, rfl⟩
    · rw [if_neg h1, if_pos ⟨rfl, hne⟩]
      exact ⟨_, rfl⟩
  · intro db pid w w0 ok post hfind hassigned hw hne
    unfold repo_mark_replied
    rw [hfind]
    dsimp only
    rw [if_pos ?_]
    rw [hassigned]
    simp only [optTruthy, Bool.and_eq_true, decide_eq_true_eq]
    exact ⟨hw, by simpa using fun h => hne h.symm⟩
  · intro db pid w post hfind hst hassigned
    unfold repo_mark_replied
    rw [hfind]
    dsimp only
    rw [if_neg ?_]
    · unfold mark_replied
      rw [if_neg (by rw [hst]; simp)]
      unfold transition_status
      rw [hst]
      have hv : validate_transition "assigned" "replied" = .ok true := by decide
      rw [hv]
      have hr : strLower "replied" = "replied" := by decide
      dsimp only
      rw [hr, if_pos rfl]
      rfl
    · rw [hassigned]
      simp [optTruthy]

/-- Witness for `assign_and_resolve_guarded` at concrete inputs: a pending
item "p2" assigns fine; on an item "p1" assigned to "w1", assignment and
resolution attempts by "w2" all fail leaving the store unchanged, while
`mark_replied` by "w1" moves "p1" to `replied`. -/
theorem assign_and_resolve_guarded_witness :
    (Post.status { reddit_post_id := "p2", permalink := "l2"
                   status := "pending", assigned_to := none
                   fetched_at := 7 } = "pending") ∧
    repo_assign_post
        { posts := [{ reddit_post_id := "p1", permalink := "l1"
                      status := "assigned", assigned_to := some "w1"
                      fetched_at := 5 }], logs := [] } "p1" "w2" true =
      (false,
       { posts := [{ reddit_post_id := "p1", permalink := "l1"
                     status := "assigned", assigned_to := some "w1"
                     fetched_at := 5 }], logs := [] }) ∧
    (∃ e, validate_action
        { reddit_post_id := "p1", permalink := "l1", status := "assigned"
          assigned_to := some "w1", fetched_at := 5 }
        .assign_to_worker (some "w2") = .error e) ∧
    (∃ e, validate_action
        { reddit_post_id := "p1", permalink := "l1", status := "assigned"
          assigned_to := some "w1", fetched_at := 5 }
        .reply (some "w2") = .error e) ∧
    repo_mark_replied
        { posts := [{ reddit_post_id := "p1", permalink := "l1"
                      status := "assigned", assigned_to := some "w1"
                      fetched_at := 5 }], logs := [] } "p1" (some "w2") true =
      (false,
       { posts := [{ reddit_post_id := "p1", permalink := "l1"
                     status := "assigned", assigned_to := some "w1"
                     fetched_at := 5 }], logs := [] }) ∧
    repo_mark_replied
        { posts := [{ reddit_post_id := "p1", permalink := "l1"
                      status := "assigned", assigned_to := some "w1"
                      fetched_at := 5 }], logs := [] } "p1" (some "w1") true =
      (true,
       { posts := [{ reddit_post_id := "p1", permalink := "l1"
                     status := "assigned", assigned_to := some "w1"
                     fetched_at := 5 }].map (fun q =>
           if q.reddit_post_id = "p1" then
             { reddit_post_id := "p1", permalink := "l1", status := "replied"
               assigned_to := some "w1", fetched_at := 5 }
           else q)
         logs := [] ++
           [{ reddit_post_id := "p1", old_status := "assigned"
              new_status := "replied", changed_by := "w1"
              change_reason := "reply_posted" }] }) := by
  refine ⟨?_, ?_, ?_, ?_, ?_, ?_⟩
  · exact assign_and_resolve_guarded.1
      { reddit_post_id := "p2", permalink := "l2", status := "pending"
        assigned_to := none, fetched_at := 7 } "w1" "w1" true
      { reddit_post_id := "p2", permalink := "l2", status := "assigned"
        assigned_to := some "w1", fetched_at := 7 }
      { reddit_post_id := "p2", old_status := "pending"
        new_status := "assigned", changed_by := "w1"
        change_reason := "manual_assign" }
      (by decide)
  · exact assign_and_resolve_guarded.2.1
      { posts := [{ reddit_post_id := "p1", permalink := "l1"
                    status := "assigned", assigned_to := some "w1"
                    fetched_at := 5 }], logs := [] } "p1" "w2" true
      { reddit_post_id := "p1", permalink := "l1", status := "assigned"
        assigned_to := some "w1", fetched_at := 5 }
      (by decide) (by decide)
  · exact assign_and_resolve_guarded.2.2.1
      { reddit_post_id := "p1", permalink := "l1", status := "assigned"
        assigned_to := some "w1", fetched_at := 5 }
      (some "w2") (by decide) (by decide)
  · exact assign_and_resolve_guarded.2.2.2.1
      { reddit_post_id := "p1", permalink := "l1", status := "assigned"
        assigned_to := some "w1", fetched_at := 5 }
      (some "w2") (by decide)
  · exact assign_and_resolve_guarded.2.2.2.2.1
      { posts := [{ reddit_post_id := "p1", permalink := "l1"
                    status := "assigned", assigned_to := some "w1"
                    fetched_at := 5 }], logs := [] } "p1" "w2" "w1" true
      { reddit_post_id := "p1", permalink := "l1", status := "assigned"
        assigned_to := some "w1", fetched_at := 5 }
      (by decide) (by decide) (by decide) (by decide)
  · exact assign_and_resolve_guarded.2.2.2.2.2
      { posts := [{ reddit_post_id := "p1", permalink := "l1"
                    status := "assigned", assigned_to := some "w1"
                    fetched_at := 5 }], logs := [] } "p1" "w1"
      { reddit_post_id := "p1", permalink := "l1", status := "assigned"
        assigned_to := some "w1", fetched_at := 5 }
      (by decide) (by decide) (by decide)

/-- C5: with the count at or below the limit, cleanup is a no-op returning 0;
above the limit, when every deletion succeeds, it deletes exactly the
`count - maxItems` oldest items by fetch timestamp (returning that count),
leaving exactly `maxItems` items, and every deleted item's fetch timestamp is
no later than that of every retained item. -/
theorem cleanup_old_posts_spec :
    ∀ (posts : List Post) (max_posts : Nat) (delOk : Post → Bool),
      (posts.length ≤ max_posts →
        delete_oldest_posts posts max_posts delOk true = (0, posts)) ∧
      (max_posts < posts.length → (∀ p, delOk p = true) →
        delete_oldest_posts posts max_posts delOk true =
          (posts.length - max_posts,
           (List.insertionSort byFetchedAt posts).drop
             (posts.length - max_posts)) ∧
        (List.insertionSort byFetchedAt posts).Perm posts ∧
        ((List.insertionSort byFetchedAt posts).drop
            (posts.length - max_posts)).length = max_posts ∧
        (∀ d ∈ (List.insertionSort byFetchedAt posts).take
            (posts.length - max_posts),
          ∀ k ∈ (List.insertionSort byFetchedAt posts).drop
            (posts.length - max_posts),
          d.fetched_at ≤ k.fetched_at)) := by
  intro posts max_posts delOk
  constructor
  · intro hle
    unfold delete_oldest_posts
    rw [if_pos hle]
  · intro hgt hall
    have hnle : ¬ posts.length ≤ max_posts := not_le.mpr hgt
    have hlen : (List.insertionSort byFetchedAt posts).length = posts.length :=
      (List.perm_insertionSort byFetchedAt posts).length_eq
    have hexc : 0 < posts.length - max_posts := Nat.sub_pos_of_lt hgt
    have holdest :
        (List.insertionSort byFetchedAt posts).take (posts.length - max_posts)
          ≠ [] := by
      intro hnil
      rcases List.take_eq_nil_iff.mp hnil with h | h
      · omega
      · rw [h] at hlen
        simp at hlen
        omega
    have hfs : ((List.insertionSort byFetchedAt posts).take
        (posts.length - max_posts)).filter delOk =
        (List.insertionSort byFetchedAt posts).take (posts.length - max_posts) :=
      List.filter_eq_self.mpr (fun a _ => hall a)
    have hfn : ((List.insertionSort byFetchedAt posts).take
        (posts.length - max_posts)).filter (fun p => !(delOk p)) = [] :=
      List.filter_eq_nil_iff.mpr (fun a _ => by simp [hall a])
    have hlent : ((List.insertionSort byFetchedAt posts).take
        (posts.length - max_posts)).length = posts.length - max_posts := by
      rw [List.length_take, hlen]
      omega
    refine ⟨?_, List.perm_insertionSort byFetchedAt posts, ?_, ?_⟩
    · unfold delete_oldest_posts
      rw [if_neg hnle]
      dsimp only
      rw [if_neg holdest, if_pos rfl, hfs, hfn, hlent]
      rw [List.nil_append]
    · rw [List.length_drop, hlen]
      omega
    · intro d hd k hk
      exact (List.sorted_insertionSort byFetchedAt posts).rel_of_mem_take_of_mem_drop
        hd hk

/-- Witness for `cleanup_old_posts_spec`: a three-item store cleaned to a
limit of one deletes the two oldest by fetch timestamp and keeps the newest;
a store within its limit is untouched. -/
theorem cleanup_old_posts_spec_witness :
    delete_oldest_posts
        [{ reddit_post_id := "a", permalink := "", status := "pending"
           assigned_to := none, fetched_at := 2 },
         { reddit_post_id := "b", permalink := "", status := "pending"
           assigned_to := none, fetched_at := 1 },
         { reddit_post_id := "c", permalink := "", status := "pending"
           assigned_to := none, fetched_at := 3 }] 1 (fun _ => true) true =
      (2,
       (List.insertionSort byFetchedAt
         [{ reddit_post_id := "a", permalink := "", status := "pending"
            assigned_to := none, fetched_at := 2 },
          { reddit_post_id := "b", permalink := "", status := "pending"
            assigned_to := none, fetched_at := 1 },
          { reddit_post_id := "c", permalink := "", status := "pending"
            assigned_to := none, fetched_at := 3 }]).drop 2) ∧
    delete_oldest_posts
        [{ reddit_post_id := "a", permalink := "", status := "pending"
           assigned_to := none, fetched_at := 2 }] 5 (fun _ => true) true =
      (0, [{ reddit_post_id := "a", permalink := "", status := "pending"
             assigned_to := none, fetched_at := 2 }]) := by
  constructor
  · exact ((cleanup_old_posts_spec
      [{ reddit_post_id := "a", permalink := "", status := "pending"
         assigned_to := none, fetched_at := 2 },
       { reddit_post_id := "b", permalink := "", status := "pending"
         assigned_to := none, fetched_at := 1 },
       { reddit_post_id := "c", permalink := "", status := "pending"
         assigned_to := none, fetched_at := 3 }] 1 (fun _ => true)).2
      (by decide) (fun _ => rfl)).1
  · exact (cleanup_old_posts_spec
      [{ reddit_post_id := "a", permalink := "", status := "pending"
         assigned_to := none, fetched_at := 2 }] 5 (fun _ => true)).1
      (by decide)

/-- Two items share a dedup key when their non-empty post ids or their
non-empty permalinks coincide. -/
def sharesKey (p q : RawPost) : Prop :=
  (p.post_id = q.post_id ∧ p.post_id ≠ "") ∨
  (p.permalink = q.permalink ∧ p.permalink ≠ "")

/-- An item lacking both dedup keys. -/
def keylessB (p : RawPost) : Bool :=
  decide (p.post_id = "") && decide (p.permalink = "")

lemma filterDupGo_sublist (ids links : List String) :
    ∀ (l : List RawPost) (s1 s2 : List String),
      List.Sublist (filterDupGo ids links l s1 s2) l := by
  intro l
  induction l with
  | nil => intro s1 s2; simp [filterDupGo]
  | cons p rest ih =>
    intro s1 s2
    unfold filterDupGo
    by_cases hb1 : (decide (p.post_id ≠ "") && s1.contains p.post_id) = true
    · rw [if_pos hb1]; exact (ih _ _).cons p
    · rw [if_neg hb1]
      by_cases hb2 : (decide (p.permalink ≠ "") && s2.contains p.permalink) = true
      · rw [if_pos hb2]; exact (ih _ _).cons p
      · rw [if_neg hb2]
        by_cases hb3 : is_duplicate ids links p = true
        · rw [if_pos hb3]; exact (ih _ _).cons p
        · rw [if_neg hb3]; exact (ih _ _).cons₂ p

lemma filterDupGo_not_dup (ids links : List String) :
    ∀ (l : List RawPost) (s1 s2 : List String) (q : RawPost),
      q ∈ filterDupGo ids links l s1 s2 →
      is_duplicate ids links q = false := by
  intro l
  induction l with
  | nil => intro s1 s2 q hq; simp [filterDupGo] at hq
  | cons p rest ih =>
    intro s1 s2 q hq
    unfold filterDupGo at hq
    by_cases hb1 : (decide (p.post_id ≠ "") && s1.contains p.post_id) = true
    · rw [if_pos hb1] at hq; exact ih _ _ q hq
    · rw [if_neg hb1] at hq
      by_cases hb2 : (decide (p.permalink ≠ "") && s2.contains p.permalink) = true
      · rw [if_pos hb2] at hq; exact ih _ _ q hq
      · rw [if_neg hb2] at hq
        by_cases hb3 : is_duplicate ids links p = true
        · rw [if_pos hb3] at hq; exact ih _ _ q hq
        · rw [if_neg hb3] at hq
          rcases List.mem_cons.mp hq with h | h
          · subst h
            cases hv : is_duplicate ids links q with
            | false => rfl
            | true => exact absurd hv hb3
          · exact ih _ _ q h

lemma filterDupGo_seen (ids links : List String) :
    ∀ (l : List RawPost) (s1 s2 : List String) (q : RawPost),
      q ∈ filterDupGo ids links l s1 s2 →
      (q.post_id = "" ∨ s1.contains q.post_id = false) ∧
      (q.permalink = "" ∨ s2.contains q.permalink = false) := by
  intro l
  induction l with
  | nil => intro s1 s2 q hq; simp [filterDupGo] at hq
  | cons p rest ih =>
    intro s1 s2 q hq
    unfold filterDupGo at hq
    by_cases hb1 : (decide (p.post_id ≠ "") && s1.contains p.post_id) = true
    · rw [if_pos hb1] at hq; exact ih _ _ q hq
    · rw [if_neg hb1] at hq
      by_cases hb2 : (decide (p.permalink ≠ "") && s2.contains p.permalink) = true
      · rw [if_pos hb2] at hq; exact ih _ _ q hq
      · rw [if_neg hb2] at hq
        by_cases hb3 : is_duplicate ids links p = true
        · rw [if_pos hb3] at hq; exact ih _ _ q hq
        · rw [if_neg hb3] at hq
          rcases List.mem_cons.mp hq with h | h
          · subst h
            constructor
            · by_cases hid : q.post_id = ""
              · exact Or.inl hid
              · cases hcv : s1.contains q.post_id with
                | false => exact Or.inr rfl
                | true => exact absurd (by rw [hcv]; simp [hid]) hb1
            · by_cases hpl : q.permalink = ""
              · exact Or.inl hpl
              · cases hcv : s2.contains q.permalink with
                | false => exact Or.inr rfl
                | true => exact absurd (by rw [hcv]; simp [hpl]) hb2
          · have hrec := ih _ _ q h
            constructor
            · rcases hrec.1 with hid | hs
              · exact Or.inl hid
              · refine Or.inr ?_
                by_cases hp : decide (p.post_id ≠ "") = true
                · rw [if_pos hp] at hs
                  simp only [List.contains_cons, Bool.or_eq_false_iff] at hs
                  exact hs.2
                · rw [if_neg hp] at hs
                  exact hs
            · rcases hrec.2 with hpl | hs
              · exact Or.inl hpl
              · refine Or.inr ?_
                by_cases hp : decide (p.permalink ≠ "") = true
                · rw [if_pos hp] at hs
                  simp only [List.contains_cons, Bool.or_eq_false_iff] at hs
                  exact hs.2
                · rw [if_neg hp] at hs
                  exact hs

lemma filterDupGo_pairwise (ids links : List String) :
    ∀ (l : List RawPost) (s1 s2 : List String),
      (filterDupGo ids links l s1 s2).Pairwise (fun p q => ¬ sharesKey p q) := by
  intro l
  induction l with
  | nil => intro s1 s2; simp [filterDupGo]
  | cons p rest ih =>
    intro s1 s2
    unfold filterDupGo
    by_cases hb1 : (decide (p.post_id ≠ "") && s1.contains p.post_id) = true
    · rw [if_pos hb1]; exact ih _ _
    · rw [if_neg hb1]
      by_cases hb2 : (decide (p.permalink ≠ "") && s2.contains p.permalink) = true
      · rw [if_pos hb2]; exact ih _ _
      · rw [if_neg hb2]
        by_cases hb3 : is_duplicate ids links p = true
        · rw [if_pos hb3]; exact ih _ _
        · rw [if_neg hb3]
          refine List.Pairwise.cons ?_ (ih _ _)
          intro q hq hshare
          have hseen := filterDupGo_seen ids links rest _ _ q hq
          rcases hshare with ⟨heq, hne⟩ | ⟨heq, hne⟩
          · rcases hseen.1 with hid | hs
            · exact hne (heq.trans hid)
            · rw [if_pos (by simpa using hne)] at hs
              simp only [List.contains_cons, Bool.or_eq_false_iff,
                beq_eq_false_iff_ne] at hs
              exact hs.1 heq.symm
          · rcases hseen.2 with hpl | hs
            · exact hne (heq.trans hpl)
            · rw [if_pos (by simpa using hne)] at hs
              simp only [List.contains_cons, Bool.or_eq_false_iff,
                beq_eq_false_iff_ne] at hs
              exact hs.1 heq.symm

lemma filterDupGo_keyless (ids links : List String) :
    ∀ (l : List RawPost) (s1 s2 : List String),
      (filterDupGo ids links l s1 s2).filter keylessB = l.filter keylessB := by
  intro l
  induction l with
  | nil => intro s1 s2; simp [filterDupGo]
  | cons p rest ih =>
    intro s1 s2
    by_cases hk : keylessB p = true
    · have hid : p.post_id = "" := by
        have h := hk
        simp only [keylessB, Bool.and_eq_true, decide_eq_true_eq] at h
        exact h.1
      have hpl : p.permalink = "" := by
        have h := hk
        simp only [keylessB, Bool.and_eq_true, decide_eq_true_eq] at h
        exact h.2
      unfold filterDupGo
      rw [if_neg (by simp [hid]), if_neg (by simp [hpl]),
        if_neg (by simp [is_duplicate, hid, hpl]),
        if_neg (by simp [hid]), if_neg (by simp [hpl])]
      rw [List.filter_cons_of_pos hk, List.filter_cons_of_pos hk, ih]
    · have hk2 : keylessB p = false := by
        cases hv : keylessB p with
        | false => rfl
        | true => exact absurd hv hk
      unfold filterDupGo
      by_cases hb1 : (decide (p.post_id ≠ "") && s1.contains p.post_id) = true
      · rw [if_pos hb1, ih, List.filter_cons_of_neg (by simp [hk2])]
      · rw [if_neg hb1]
        by_cases hb2 : (decide (p.permalink ≠ "") &&
            s2.contains p.permalink) = true
        · rw [if_pos hb2, ih, List.filter_cons_of_neg (by simp [hk2])]
        · rw [if_neg hb2]
          by_cases hb3 : is_duplicate ids links p = true
          · rw [if_pos hb3, ih, List.filter_cons_of_neg (by simp [hk2])]
          · rw [if_neg hb3, List.filter_cons_of_neg (by simp [hk2]),
              List.filter_cons_of_neg (by simp [hk2]), ih]

lemma filterDupGo_first_mem (ids links : List String) :
    ∀ (l₁ : List RawPost) (p : RawPost) (l₂ : List RawPost)
      (s1 s2 : List String),
      is_duplicate ids links p = false →
      (p.post_id = "" ∨ (s1.contains p.post_id = false ∧
        ∀ q ∈ l₁, q.post_id ≠ p.post_id)) →
      (p.permalink = "" ∨ (s2.contains p.permalink = false ∧
        ∀ q ∈ l₁, q.permalink ≠ p.permalink)) →
      p ∈ filterDupGo ids links (l₁ ++ p :: l₂) s1 s2 := by
  intro l₁
  induction l₁ with
  | nil =>
    intro p l₂ s1 s2 hdup h1 h2
    have hc1 : ¬ (decide (p.post_id ≠ "") && s1.contains p.post_id) = true := by
      rcases h1 with h | ⟨h, _⟩
      · simp [h]
      · rw [h]
        simp
    have hc2 : ¬ (decide (p.permalink ≠ "") && s2.contains p.permalink) = true := by
      rcases h2 with h | ⟨h, _⟩
      · simp [h]
      · rw [h]
        simp
    rw [List.nil_append]
    unfold filterDupGo
    rw [if_neg hc1, if_neg hc2, if_neg (by simp [hdup])]
    exact List.mem_cons_self p _
  | cons r l₁ ih =>
    intro p l₂ s1 s2 hdup h1 h2
    have hskip1 : p.post_id = "" ∨ (s1.contains p.post_id = false ∧
        ∀ q ∈ l₁, q.post_id ≠ p.post_id) := by
      rcases h1 with h | ⟨hs, hall⟩
      · exact Or.inl h
      · exact Or.inr ⟨hs, fun q hq => hall q (List.mem_cons_of_mem r hq)⟩
    have hskip2 : p.permalink = "" ∨ (s2.contains p.permalink = false ∧
        ∀ q ∈ l₁, q.permalink ≠ p.permalink) := by
      rcases h2 with h | ⟨hs, hall⟩
      · exact Or.inl h
      · exact Or.inr ⟨hs, fun q hq => hall q (List.mem_cons_of_mem r hq)⟩
    have hnext1 : p.post_id = "" ∨
        ((if decide (r.post_id ≠ "") = true then r.post_id :: s1
          else s1).contains p.post_id = false ∧
          ∀ q ∈ l₁, q.post_id ≠ p.post_id) := by
      rcases h1 with h | ⟨hs, hall⟩
      · exact Or.inl h
      · refine Or.inr ⟨?_, fun q hq => hall q (List.mem_cons_of_mem r hq)⟩
        have hrp : r.post_id ≠ p.post_id := hall r (List.mem_cons_self r l₁)
        by_cases hr : decide (r.post_id ≠ "") = true
        · rw [if_pos hr]
          simp only [List.contains_cons, Bool.or_eq_false_iff,
            beq_eq_false_iff_ne]
          exact ⟨fun h => hrp h.symm, hs⟩
        · rw [if_neg hr]
          exact hs
    have hnext2 : p.permalink = "" ∨
        ((if decide (r.permalink ≠ "") = true then r.permalink :: s2
          else s2).contains p.permalink = false ∧
          ∀ q ∈ l₁, q.permalink ≠ p.permalink) := by
      rcases h2 with h | ⟨hs, hall⟩
      · exact Or.inl h
      · refine Or.inr ⟨?_, fun q hq => hall q (List.mem_cons_of_mem r hq)⟩
        have hrp : r.permalink ≠ p.permalink := hall r (List.mem_cons_self r l₁)
        by_cases hr : decide (r.permalink ≠ "") = true
        · rw [if_pos hr]
          simp only [List.contains_cons, Bool.or_eq_false_iff,
            beq_eq_false_iff_ne]
          exact ⟨fun h => hrp h.symm, hs⟩
        · rw [if_neg hr]
          exact hs
    rw [List.cons_append]
    unfold filterDupGo
    by_cases hb1 : (decide (r.post_id ≠ "") && s1.contains r.post_id) = true
    · rw [if_pos hb1]
      exact ih p l₂ s1 s2 hdup hskip1 hskip2
    · rw [if_neg hb1]
      by_cases hb2 : (decide (r.permalink ≠ "") && s2.contains r.permalink) = true
      · rw [if_pos hb2]
        exact ih p l₂ s1 s2 hdup hskip1 hskip2
      · rw [if_neg hb2]
        by_cases hb3 : is_duplicate ids links r = true
        · rw [if_pos hb3]
          exact ih p l₂ s1 s2 hdup hskip1 hskip2
        · rw [if_neg hb3]
          exact List.mem_cons_of_mem r (ih p l₂ _ _ hdup hnext1 hnext2)

/-- C6: the deduplicated batch is a subsequence of the input (input order,
first occurrence wins); no output item is a duplicate of the pre-existing
key sets; no two output items share a non-empty id or a non-empty permalink;
items lacking both keys are never removed; and an input item that clashes
neither with the existing sets nor with any earlier input item is kept. -/
theorem filter_duplicates_spec :
    ∀ (existing_post_ids existing_permalinks : List String)
      (posts : List RawPost),
      List.Sublist
        (filter_duplicates existing_post_ids existing_permalinks posts)
        posts ∧
      (∀ q ∈ filter_duplicates existing_post_ids existing_permalinks posts,
        is_duplicate existing_post_ids existing_permalinks q = false) ∧
      (filter_duplicates existing_post_ids existing_permalinks posts).Pairwise
        (fun p q => ¬ sharesKey p q) ∧
      (filter_duplicates existing_post_ids existing_permalinks posts).filter
          keylessB = posts.filter keylessB ∧
      (∀ (l₁ : List RawPost) (p : RawPost) (l₂ : List RawPost),
        posts = l₁ ++ p :: l₂ →
        is_duplicate existing_post_ids existing_permalinks p = false →
        (∀ q ∈ l₁, ¬ sharesKey q p) →
        p ∈ filter_duplicates existing_post_ids existing_permalinks posts) := by
  intro ids links posts
  refine ⟨filterDupGo_sublist ids links posts [] [],
    fun q hq => filterDupGo_not_dup ids links posts [] [] q hq,
    filterDupGo_pairwise ids links posts [] [],
    filterDupGo_keyless ids links posts [] [], ?_⟩
  intro l₁ p l₂ hsplit hdup hshare
  subst hsplit
  refine filterDupGo_first_mem ids links l₁ p l₂ [] [] hdup ?_ ?_
  · by_cases hid : p.post_id = ""
    · exact Or.inl hid
    · refine Or.inr ⟨rfl, fun q hq heq => ?_⟩
      exact hshare q hq (Or.inl ⟨heq, by rw [heq]; exact hid⟩)
  · by_cases hpl : p.permalink = ""
    · exact Or.inl hpl
    · refine Or.inr ⟨rfl, fun q hq heq => ?_⟩
      exact hshare q hq (Or.inr ⟨heq, by rw [heq]; exact hpl⟩)

/-- Witness for `filter_duplicates_spec` at a concrete batch against a
concrete known-id set: the output is a subsequence of the input, and an item
clashing with nothing earlier is kept. -/
theorem filter_duplicates_spec_witness :
    List.Sublist
      (filter_duplicates ["a"] ["la"]
        [{ post_id := "a", permalink := "x", title := "t", body := "b"
           fetched_at := 1 },
         { post_id := "b", permalink := "lb", title := "t", body := "b"
           fetched_at := 2 },
         { post_id := "b", permalink := "lc", title := "t", body := "b"
           fetched_at := 3 },
         { post_id := "", permalink := "", title := "t", body := "b"
           fetched_at := 4 }])
      [{ post_id := "a", permalink := "x", title := "t", body := "b"
         fetched_at := 1 },
       { post_id := "b", permalink := "lb", title := "t", body := "b"
         fetched_at := 2 },
       { post_id := "b", permalink := "lc", title := "t", body := "b"
         fetched_at := 3 },
       { post_id := "", permalink := "", title := "t", body := "b"
         fetched_at := 4 }] ∧
    { post_id := "b", permalink := "lb", title := "t", body := "b"
      fetched_at := 2 } ∈
      filter_duplicates ["a"] ["la"]
        [{ post_id := "a", permalink := "x", title := "t", body := "b"
           fetched_at := 1 },
         { post_id := "b", permalink := "lb", title := "t", body := "b"
           fetched_at := 2 },
         { post_id := "b", permalink := "lc", title := "t", body := "b"
           fetched_at := 3 },
         { post_id := "", permalink := "", title := "t", body := "b"
           fetched_at := 4 }] := by
  constructor
  · exact (filter_duplicates_spec ["a"] ["la"]
      [{ post_id := "a", permalink := "x", title := "t", body := "b"
         fetched_at := 1 },
       { post_id := "b", permalink := "lb", title := "t", body := "b"
         fetched_at := 2 },
       { post_id := "b", permalink := "lc", title := "t", body := "b"
         fetched_at := 3 },
       { post_id := "", permalink := "", title := "t", body := "b"
         fetched_at := 4 }]).1
  · exact (filter_duplicates_spec ["a"] ["la"]
      [{ post_id := "a", permalink := "x", title := "t", body := "b"
         fetched_at := 1 },
       { post_id := "b", permalink := "lb", title := "t", body := "b"
         fetched_at := 2 },
       { post_id := "b", permalink := "lc", title := "t", body := "b"
         fetched_at := 3 },
       { post_id := "", permalink := "", title := "t", body := "b"
         fetched_at := 4 }]).2.2.2.2
      [{ post_id := "a", permalink := "x", title := "t", body := "b"
         fetched_at := 1 }]
      { post_id := "b", permalink := "lb", title := "t", body := "b"
        fetched_at := 2 }
      [{ post_id := "b", permalink := "lc", title := "t", body := "b"
         fetched_at := 3 },
       { post_id := "", permalink := "", title := "t", body := "b"
         fetched_at := 4 }]
      rfl (by decide)
      (by
        intro q hq
        simp only [List.mem_singleton] at hq
        subst hq
        simp [sharesKey])

/-- C7 counterexample: with an empty primary class but a non-empty secondary
class (one keyword), `filter_posts` does not return the batch unchanged — the
conjunctive rule can never find a primary match, so every post is rejected,
even one whose text contains the secondary keyword. -/
theorem keyword_filter_empty_class_cex :
    filter_posts [] ["loan"]
        [{ post_id := "p1", permalink := "l1", title := "hello"
           body := "loan help", fetched_at := 0 }] = [] ∧
    filter_posts [] ["loan"]
        [{ post_id := "p1", permalink := "l1", title := "hello"
           body := "loan help", fetched_at := 0 }] ≠
      [{ post_id := "p1", permalink := "l1", title := "hello"
         body := "loan help", fetched_at := 0 }] := by
  constructor
  · decide
  · decide

/-- C7 (amended): only when BOTH keyword classes are empty — the total
configured keyword count is zero — does `KeywordFilter.filter_posts` treat
the batch as accept-all and return it unchanged; with exactly one empty class
the conjunctive matching rule runs and rejects every post. -/
theorem keyword_filter_no_keywords_accepts_all :
    ∀ (posts : List RawPost),
      filter_posts [] [] posts = posts ∧
      (∀ (kw : String) (p : RawPost), p ∈ posts →
        p ∉ filter_posts [] [kw] posts ∧ p ∉ filter_posts [kw] [] posts) := by
  intro posts
  refine ⟨rfl, ?_⟩
  intro kw p hp
  constructor
  · intro hmem
    unfold filter_posts at hmem
    rw [if_neg (by simp)] at hmem
    have := List.of_mem_filter hmem
    simp [keywordMatches, matcherMatch] at this
  · intro hmem
    unfold filter_posts at hmem
    rw [if_neg (by simp)] at hmem
    have := List.of_mem_filter hmem
    simp [keywordMatches, matcherMatch] at this

/-- C8: the pipeline's filter stage is not policy-controlled and its bypass
is not reported — the configured keyword classes have no effect on the run at
all (any two configurations give identical results), and a concrete run whose
single fetched post matches none of the configured keywords still saves it,
returning a summary holding only the four count fields with no bypass
indicator. -/
theorem pipeline_filter_stage_always_bypassed :
    (∀ (primary1 secondary1 primary2 secondary2 : List String)
      (max_posts : Nat) (db : DBState) (raw : List RawPost)
      (delOk : Post → Bool) (cOk : Bool) (insertOk : RawPost → Bool)
      (tOk : Bool),
      pipeline_run primary1 secondary1 max_posts db raw delOk cOk insertOk tOk =
        pipeline_run primary2 secondary2 max_posts db raw delOk cOk insertOk
          tOk) ∧
    keywordMatches ["mortgage"] ["escrow"]
      { post_id := "p1", permalink := "l1", title := "hello", body := "world"
        fetched_at := 5 } = false ∧
    (pipeline_run ["mortgage"] ["escrow"] 10 { posts := [], logs := [] }
        [{ post_id := "p1", permalink := "l1", title := "hello", body := "world"
           fetched_at := 5 }] (fun _ => true) true (fun _ => true) true).1 =
      { total_fetched := 1, total_saved := 1, duplicates_skipped := 0
        old_posts_deleted := some 0 } := by
  refine ⟨?_, ?_, ?_⟩
  · intro _ _ _ _ _ _ _ _ _ _ _
    rfl
  · decide
  · decide

lemma find?_id_of_contains {db : List Post} {x : String}
    (h : (db.map Post.reddit_post_id).contains x = true) :
    ∃ p, db.find? (fun p => decide (p.reddit_post_id = x)) = some p := by
  have hx : x ∈ db.map Post.reddit_post_id := List.mem_of_elem_eq_true h
  obtain ⟨p, hp, hpe⟩ := List.mem_map.mp hx
  have : (db.find? (fun p => decide (p.reddit_post_id = x))).isSome = true :=
    List.find?_isSome.mpr ⟨p, hp, by simp [hpe]⟩
  obtain ⟨q, hq⟩ := Option.isSome_iff_exists.mp this
  exact ⟨q, hq⟩

lemma create_post_insertOk_ok (db : DBState) (d : RawPost) (tOk : Bool) :
    ∃ r, create_post db d (fun _ => true) tOk = .ok r := by
  unfold create_post
  by_cases hdup : d.post_id ≠ "" ∧
      (db.posts.map Post.reddit_post_id).contains d.post_id = true
  · obtain ⟨p, hp⟩ := find?_id_of_contains hdup.2
    rw [if_pos hdup, hp]
    exact ⟨_, rfl⟩
  · rw [if_neg hdup, if_neg (by simp)]
    dsimp only
    cases hts : transition_status
        { reddit_post_id := d.post_id, permalink := d.permalink
          status := "fetched", assigned_to := none
          fetched_at := d.fetched_at } "pending" "system" "post_created" tOk with
    | ok r =>
      obtain ⟨updated, entry⟩ := r
      exact ⟨_, rfl⟩
    | error e => exact ⟨_, rfl⟩

/-- C10: creating an item whose external id is already stored returns the
stored row with the store untouched (no raise, no insert); a batch create
where every insert commit succeeds returns one stored row per input, and —
for a batch of distinct non-empty ids — appends to the store exactly the rows
for the ids not already present, as `pending` rows. -/
theorem create_post_duplicate_returns_existing :
    (∀ (db : DBState) (d : RawPost) (insertOk : RawPost → Bool) (tOk : Bool)
      (existing : Post),
      d.post_id ≠ "" →
      db.posts.find? (fun p => decide (p.reddit_post_id = d.post_id)) =
        some existing →
      create_post db d insertOk tOk = .ok (existing, db)) ∧
    (∀ (db : DBState) (batch : List RawPost) (tOk : Bool),
      (create_posts db batch (fun _ => true) tOk).1.length = batch.length) ∧
    (∀ (db : DBState) (batch : List RawPost),
      (batch.map RawPost.post_id).Pairwise (· ≠ ·) →
      (∀ d ∈ batch, d.post_id ≠ "") →
      (create_posts db batch (fun _ => true) true).2.posts =
        db.posts ++ (batch.filter (fun d =>
          !((db.posts.map Post.reddit_post_id).contains d.post_id))).map
          (fun d => { reddit_post_id := d.post_id, permalink := d.permalink
                      status := "pending", assigned_to := none
                      fetched_at := d.fetched_at })) := by
  refine ⟨?_, ?_, ?_⟩
  · intro db d insertOk tOk existing hne hfind
    unfold create_post
    have hmem : d.post_id ∈ db.posts.map Post.reddit_post_id := by
      have hp := List.mem_of_find?_eq_some hfind
      have he := List.find?_some hfind
      simp only [decide_eq_true_eq] at he
      exact he ▸ List.mem_map_of_mem Post.reddit_post_id hp
    rw [if_pos ⟨hne, List.elem_eq_true_of_mem hmem⟩, hfind]
  · intro db batch tOk
    induction batch generalizing db with
    | nil => rfl
    | cons d rest ih =>
      obtain ⟨⟨p, db1⟩, hcp⟩ := create_post_insertOk_ok db d tOk
      unfold create_posts
      rw [hcp]
      simp [ih db1]
  · intro db batch
    induction batch generalizing db with
    | nil =>
      intro _ _
      simp [create_posts]
    | cons d rest ih =>
      intro hpw hne
      have hpw' : (rest.map RawPost.post_id).Pairwise (· ≠ ·) :=
        (List.pairwise_cons.mp (by simpa using hpw)).2
      have hhead : ∀ x ∈ rest, d.post_id ≠ x.post_id := by
        intro x hx
        exact (List.pairwise_cons.mp (by simpa using hpw)).1 x.post_id
          (List.mem_map_of_mem RawPost.post_id hx)
      have hne' : ∀ x ∈ rest, x.post_id ≠ "" :=
        fun x hx => hne x (List.mem_cons_of_mem d hx)
      have hdne : d.post_id ≠ "" := hne d (List.mem_cons_self d rest)
      by_cases hknown :
          (db.posts.map Post.reddit_post_id).contains d.post_id = true
      · obtain ⟨p, hp⟩ := find?_id_of_contains hknown
        unfold create_posts
        unfold create_post
        rw [if_pos ⟨hdne, hknown⟩, hp]
        dsimp only
        rw [List.filter_cons_of_neg (by rw [hknown]; decide)]
        exact ih db hpw' hne'
      · have hknownf :
            (db.posts.map Post.reddit_post_id).contains d.post_id = false := by
          cases hv : (db.posts.map Post.reddit_post_id).contains d.post_id with
          | false => rfl
          | true => exact absurd hv hknown
        unfold create_posts
        unfold create_post
        rw [if_neg (by intro hc; rw [hknownf] at hc; exact Bool.noConfusion hc.2),
          if_neg (by simp)]
        have hts : transition_status
            { reddit_post_id := d.post_id, permalink := d.permalink
              status := "fetched", assigned_to := none
              fetched_at := d.fetched_at } "pending" "system" "post_created"
            true =
            .ok ({ reddit_post_id := d.post_id, permalink := d.permalink
                   status := "pending", assigned_to := none
                   fetched_at := d.fetched_at },
                 { reddit_post_id := d.post_id, old_status := "fetched"
                   new_status := "pending", changed_by := "system"
                   change_reason := "post_created" }) := by
          unfold transition_status
          rw [show validate_transition "fetched" "pending" = .ok true from
            by decide]
          dsimp only
          rw [show strLower "pending" = "pending" from by decide]
          rfl
        dsimp only
        rw [hts]
        dsimp only
        rw [List.filter_cons_of_pos (by rw [hknownf]; decide)]
        have hcongr : ∀ x ∈ rest,
            (!(((db.posts ++
          [({ reddit_post_id := d.post_id, permalink := d.permalink
              status := "pending", assigned_to := none
              fetched_at := d.fetched_at } : Post)]).map
                Post.reddit_post_id).contains x.post_id)) =
            (!((db.posts.map Post.reddit_post_id).contains x.post_id)) := by
          intro x hx
          rw [List.map_append]
          have happ : ∀ (l1 l2 : List String) (y : String),
              (l1 ++ l2).contains y = (l1.contains y || l2.contains y) := by
            intro l1 l2 y
            simp [List.contains_eq_any_beq, List.any_append]
          rw [happ]
          have : ([({ reddit_post_id := d.post_id, permalink := d.permalink
                      status := "pending", assigned_to := none
                      fetched_at := d.fetched_at } : Post)].map
              Post.reddit_post_id).contains x.post_id = false := by
            simp only [List.map_cons, List.map_nil, List.contains_cons,
              List.contains_nil, Bool.or_false]
            exact beq_eq_false_iff_ne.mpr fun h => hhead x hx h.symm
          rw [this, Bool.or_false]
        rw [ih _ hpw' hne']
        rw [List.filter_congr hcongr]
        dsimp only
        rw [List.append_assoc, List.singleton_append, List.map_cons]

/-- Witness for `create_post_duplicate_returns_existing`: re-creating a
stored id "a" returns the stored row untouched; a mixed batch of a known and
an unknown id returns two rows and appends exactly the unknown one as
`pending`. -/
theorem create_post_duplicate_returns_existing_witness :
    create_post
        { posts := [{ reddit_post_id := "a", permalink := "la"
                      status := "assigned", assigned_to := some "w1"
                      fetched_at := 1 }], logs := [] }
        { post_id := "a", permalink := "la2", title := "t", body := "b"
          fetched_at := 9 } (fun _ => true) true =
      .ok ({ reddit_post_id := "a", permalink := "la"
             status := "assigned", assigned_to := some "w1"
             fetched_at := 1 },
           { posts := [{ reddit_post_id := "a", permalink := "la"
                         status := "assigned", assigned_to := some "w1"
                         fetched_at := 1 }], logs := [] }) ∧
    (create_posts
        { posts := [{ reddit_post_id := "a", permalink := "la"
                      status := "assigned", assigned_to := some "w1"
                      fetched_at := 1 }], logs := [] }
        [{ post_id := "a", permalink := "la2", title := "t", body := "b"
           fetched_at := 9 },
         { post_id := "b", permalink := "lb", title := "t", body := "b"
           fetched_at := 10 }] (fun _ => true) true).1.length = 2 ∧
    (create_posts
        { posts := [{ reddit_post_id := "a", permalink := "la"
                      status := "assigned", assigned_to := some "w1"
                      fetched_at := 1 }], logs := [] }
        [{ post_id := "a", permalink := "la2", title := "t", body := "b"
           fetched_at := 9 },
         { post_id := "b", permalink := "lb", title := "t", body := "b"
           fetched_at := 10 }] (fun _ => true) true).2.posts =
      [{ reddit_post_id := "a", permalink := "la", status := "assigned"
         assigned_to := some "w1", fetched_at := 1 }] ++
      (([{ post_id := "a", permalink := "la2", title := "t", body := "b"
           fetched_at := 9 },
         { post_id := "b", permalink := "lb", title := "t", body := "b"
           fetched_at := 10 }] : List RawPost).filter (fun d =>
          !((([({ reddit_post_id := "a", permalink := "la"
                  status := "assigned", assigned_to := some "w1"
                  fetched_at := 1 } : Post)]).map Post.reddit_post_id).contains
            d.post_id))).map
        (fun d => { reddit_post_id := d.post_id, permalink := d.permalink
                    status := "pending", assigned_to := none
                    fetched_at := d.fetched_at }) := by
  refine ⟨?_, ?_, ?_⟩
  · exact create_post_duplicate_returns_existing.1
      { posts := [{ reddit_post_id := "a", permalink := "la"
                    status := "assigned", assigned_to := some "w1"
                    fetched_at := 1 }], logs := [] }
      { post_id := "a", permalink := "la2", title := "t", body := "b"
        fetched_at := 9 } (fun _ => true) true
      { reddit_post_id := "a", permalink := "la", status := "assigned"
        assigned_to := some "w1", fetched_at := 1 }
      (by decide) (by decide)
  · exact create_post_duplicate_returns_existing.2.1
      { posts := [{ reddit_post_id := "a", permalink := "la"
                    status := "assigned", assigned_to := some "w1"
                    fetched_at := 1 }], logs := [] }
      [{ post_id := "a", permalink := "la2", title := "t", body := "b"
         fetched_at := 9 },
       { post_id := "b", permalink := "lb", title := "t", body := "b"
         fetched_at := 10 }] true
  · exact create_post_duplicate_returns_existing.2.2
      { posts := [{ reddit_post_id := "a", permalink := "la"
                    status := "assigned", assigned_to := some "w1"
                    fetched_at := 1 }], logs := [] }
      [{ post_id := "a", permalink := "la2", title := "t", body := "b"
         fetched_at := 9 },
       { post_id := "b", permalink := "lb", title := "t", body := "b"
         fetched_at := 10 }]
      (by decide) (by decide)

/-- Witness for `keyword_filter_no_keywords_accepts_all`: a concrete batch
passes through untouched with no keywords configured, and is fully rejected
with only a secondary keyword configured. -/
theorem keyword_filter_no_keywords_accepts_all_witness :
    filter_posts [] []
        [{ post_id := "p9", permalink := "l9", title := "t", body := "b"
           fetched_at := 0 }] =
      [{ post_id := "p9", permalink := "l9", title := "t", body := "b"
         fetched_at := 0 }] ∧
    { post_id := "p9", permalink := "l9", title := "t", body := "b"
      fetched_at := 0 } ∉
      filter_posts [] ["t"]
        [{ post_id := "p9", permalink := "l9", title := "t", body := "b"
           fetched_at := 0 }] := by
  constructor
  · exact (keyword_filter_no_keywords_accepts_all
      [{ post_id := "p9", permalink := "l9", title := "t", body := "b"
         fetched_at := 0 }]).1
  · exact ((keyword_filter_no_keywords_accepts_all
      [{ post_id := "p9", permalink := "l9", title := "t", body := "b"
         fetched_at := 0 }]).2 "t"
      { post_id := "p9", permalink := "l9", title := "t", body := "b"
        fetched_at := 0 } (by decide)).1

example : validate_transition "pending" "assigned" = .ok true := by decide
example : validate_transition "archived" "pending" =
    .error (.invalidTransition .archived .pending []) := by decide
example : validate_transition "Pending" "pending" = .ok true := by decide
example : validate_transition "weird" "pending" =
    .error (.invalidStatus "weird" "pending") := by decide
